import Mathlib

/-!
Verification development for the two form screens of the squpe-app mobile
repository: `src/mobile/screens/CreateCampaignScreen.js` and
`src/mobile/screens/GoLiveScreen.js`.

The JavaScript code is shallowly embedded: each screen's local state is a
structure, the `validateForm` and submit handlers are Lean functions, and a
submission produces a trace of observable effects (busy-flag writes, the one
network request, alert notifications) together with the resulting state.
JavaScript string and number primitives (`trim`, `split`, `parseFloat`,
`parseInt`, truthiness, `||`) are modelled faithfully, including the fact
that a comparison against NaN is always false.
-/

/-- Characters stripped by JavaScript `String.prototype.trim` and skipped by
`parseFloat` / `parseInt`: WhiteSpace and LineTerminator code points. -/
def isJsWhitespace (c : Char) : Bool :=
  c = ' ' || c = '\t' || c = '\n' || c = '\r' ||
  c = '\x0b' || c = '\x0c' || c = ' ' || c = ' ' ||
  (0x2000 ≤ c.toNat && c.toNat ≤ 0x200A) ||
  c = ' ' || c = ' ' || c = ' ' || c = ' ' ||
  c = '　' || c = '﻿'

/-- JavaScript `s.trim()`: remove leading and trailing whitespace. -/
def jsTrim (s : String) : String :=
  ⟨((s.data.dropWhile isJsWhitespace).reverse.dropWhile isJsWhitespace).reverse⟩

/-- Splitting worker for `jsSplitComma`: `acc` holds the current segment
reversed. -/
def splitCommaAux : List Char → List Char → List String
  | [], acc => [⟨acc.reverse⟩]
  | ',' :: rest, acc => (⟨acc.reverse⟩ : String) :: splitCommaAux rest []
  | c :: rest, acc => splitCommaAux rest (c :: acc)

/-- JavaScript `s.split(',')` with the one-character separator used by the
campaign screen's tags field: `""` yields `[""]`, separators at the ends
yield empty segments. -/
def jsSplitComma (s : String) : List String :=
  splitCommaAux s.data []

/-- JavaScript numeric value as produced by `parseFloat`: NaN, a signed
infinity, or a finite decimal `(-1)^neg * mantissa * 10^exp` (kept exact; the
rounding of a decimal literal to a binary double preserves the sign and
zero-ness relevant to the `<= 0` validation checks). -/
inductive JsNum
  | nan
  | inf (neg : Bool)
  | finite (neg : Bool) (mantissa : Nat) (exp : Int)
  deriving DecidableEq, Repr

/-- The JavaScript comparison `x <= 0`: false for NaN (comparisons against
NaN are always false), true for `-Infinity`, and for a finite decimal true
exactly when the mantissa is zero or the sign is negative. -/
def JsNum.leZero : JsNum → Bool
  | .nan => false
  | .inf neg => neg
  | .finite neg m _ => m == 0 || neg

/-- Optional leading sign: `-` negates, `+` is consumed, anything else is
left in place. -/
def parseSign : List Char → Bool × List Char
  | '-' :: cs => (true, cs)
  | '+' :: cs => (false, cs)
  | cs => (false, cs)

/-- Decimal digits to a natural number (most significant first). -/
def digitsToNat (ds : List Char) : Nat :=
  ds.foldl (fun n c => 10 * n + (c.toNat - 48)) 0

/-- Exponent part of a `parseFloat` literal: `e`/`E`, optional sign, digits.
A malformed exponent (no digits) is not part of the parsed prefix, so it
contributes 0. -/
def parseExpPart : List Char → Int
  | 'e' :: rest => parseExpDigits rest
  | 'E' :: rest => parseExpDigits rest
  | _ => 0
where
  parseExpDigits (rest : List Char) : Int :=
    let (eneg, rest2) := parseSign rest
    let ds := rest2.takeWhile Char.isDigit
    if ds.isEmpty then 0
    else if eneg then -(digitsToNat ds : Int) else (digitsToNat ds : Int)

/-- JavaScript `parseFloat(s)`: skip whitespace, optional sign, then the
longest prefix that is `Infinity`, or decimal digits with an optional
fraction and exponent; NaN when no numeric prefix exists. -/
def jsParseFloat (s : String) : JsNum :=
  let cs := s.data.dropWhile isJsWhitespace
  let (neg, cs1) := parseSign cs
  if cs1.take 8 = "Infinity".data then .inf neg
  else
    let intDs := cs1.takeWhile Char.isDigit
    let rest1 := cs1.dropWhile Char.isDigit
    match rest1 with
    | '.' :: rest2 =>
      let fracDs := rest2.takeWhile Char.isDigit
      let rest3 := rest2.dropWhile Char.isDigit
      if intDs.isEmpty && fracDs.isEmpty then .nan
      else .finite neg (digitsToNat (intDs ++ fracDs))
             (parseExpPart rest3 - (fracDs.length : Int))
    | _ =>
      if intDs.isEmpty then .nan
      else .finite neg (digitsToNat intDs) (parseExpPart rest1)

/-- Hexadecimal digit test for `parseInt`'s `0x` form. -/
def isHexDigit (c : Char) : Bool :=
  c.isDigit || (97 ≤ c.toNat && c.toNat ≤ 102) || (65 ≤ c.toNat && c.toNat ≤ 70)

/-- Hexadecimal digit value. -/
def hexVal (c : Char) : Nat :=
  if c.isDigit then c.toNat - 48
  else if 97 ≤ c.toNat then c.toNat - 87
  else c.toNat - 55

/-- Hex digits to a natural number. -/
def hexDigitsToNat (ds : List Char) : Nat :=
  ds.foldl (fun n c => 16 * n + hexVal c) 0

/-- JavaScript `parseInt(s)` with no radix argument: skip whitespace,
optional sign, `0x`/`0X` switches to base 16, otherwise base 10 digits;
`none` models NaN (no digits in the prefix). -/
def jsParseInt (s : String) : Option Int :=
  let cs := s.data.dropWhile isJsWhitespace
  let (neg, cs1) := parseSign cs
  match cs1 with
  | '0' :: 'x' :: rest =>
    let ds := rest.takeWhile isHexDigit
    if ds.isEmpty then none
    else some ((if neg then -1 else 1) * (hexDigitsToNat ds : Int))
  | '0' :: 'X' :: rest =>
    let ds := rest.takeWhile isHexDigit
    if ds.isEmpty then none
    else some ((if neg then -1 else 1) * (hexDigitsToNat ds : Int))
  | _ =>
    let ds := cs1.takeWhile Char.isDigit
    if ds.isEmpty then none
    else some ((if neg then -1 else 1) * (digitsToNat ds : Int))

/-- The JavaScript comparison `parseInt(s) <= 0` where `none` stands for
NaN: false for NaN. -/
def jsIntLeZero : Option Int → Bool
  | none => false
  | some i => i ≤ 0

/-- JavaScript `detail || fallback` for an optional string field of a JSON
response: the fallback is used when the field is absent or the empty string
(falsy). -/
def jsStrOr : Option String → String → String
  | some s, fb => if s = "" then fb else s
  | none, fb => fb

/-- JavaScript truthiness of the `hasPermission` state (`null` before the
permission request resolves, then `true` or `false`): only `true` is
truthy. -/
def jsTruthy : Option Bool → Bool
  | some true => true
  | _ => false

/-! ## Screen state, validation and payloads -/

/-- Local state of CreateCampaignScreen: the five text fields and the busy
flag (`isLoading`), all initially empty / false. -/
structure CampaignState where
  title : String
  description : String
  fundingGoal : String
  duration : String
  tags : String
  isLoading : Bool
  deriving DecidableEq, Repr

/-- Camera.Constants.Type on the GoLive screen. -/
inductive CameraType
  | back
  | front
  deriving DecidableEq, Repr

/-- Local state of GoLiveScreen: title, description, category, the tri-state
permission flag (`none` = not yet resolved), the busy flag, and the two
purely local camera-UI toggles. -/
structure GoLiveState where
  title : String
  description : String
  category : String
  hasPermission : Option Bool
  isLoading : Bool
  cameraType : CameraType
  showPreview : Bool
  deriving DecidableEq, Repr

/-- The eight fixed category chips rendered by GoLiveScreen. -/
def categories : List String :=
  ["Social Impact", "Education", "Environment", "Health",
   "Community", "Arts & Culture", "Technology", "Other"]

/-- CreateCampaignScreen's validateForm: returns the (alert title, alert
message) of the first failing rule, or `none` when validation passes.
Mirrors the source line by line: trimmed-empty checks on title and
description, then `!fundingGoal || parseFloat(fundingGoal) <= 0`, then
`!duration || parseInt(duration) <= 0`. -/
def campaignValidate (s : CampaignState) : Option (String × String) :=
  if jsTrim s.title = "" then
    some ("Error", "Please enter a campaign title")
  else if jsTrim s.description = "" then
    some ("Error", "Please enter a campaign description")
  else if s.fundingGoal = "" || (jsParseFloat s.fundingGoal).leZero then
    some ("Error", "Please enter a valid funding goal")
  else if s.duration = "" || jsIntLeZero (jsParseInt s.duration) then
    some ("Error", "Please enter a valid duration in days")
  else
    none

/-- GoLiveScreen's validateForm: trimmed-empty title check, then the length
check on the UNTRIMMED title (`title.length < 3` in the source), then the
truthiness check on category. -/
def goLiveValidate (s : GoLiveState) : Option (String × String) :=
  if jsTrim s.title = "" then
    some ("Missing Information", "Please enter a stream title")
  else if s.title.length < 3 then
    some ("Title Too Short", "Stream title must be at least 3 characters")
  else if s.category = "" then
    some ("Missing Category", "Please select a category")
  else
    none

/-- JSON body of the campaign POST, as built in handleLaunchCampaign. -/
structure CampaignPayload where
  title : String
  description : String
  goal : JsNum
  duration_days : Option Int
  tags : List String
  user_id : String
  deriving DecidableEq, Repr

/-- The campaign request body: trimmed title and description, parsed goal
and duration, tags split on commas with each segment trimmed and empty
segments dropped, and the hardcoded user id placeholder. -/
def mkCampaignPayload (s : CampaignState) : CampaignPayload :=
  { title := jsTrim s.title
    description := jsTrim s.description
    goal := jsParseFloat s.fundingGoal
    duration_days := jsParseInt s.duration
    tags := ((jsSplitComma s.tags).map jsTrim).filter (fun t => t != "")
    user_id := "current_user_id" }

/-- JSON body of the livestream POST, as built in handleGoLive. -/
structure LivePayload where
  title : String
  description : String
  category : String
  status : String
  viewer_count : Nat
  deriving DecidableEq, Repr

/-- The livestream request body: trimmed title and description, the selected
category, status "live" and viewer count 0. -/
def mkLivePayload (s : GoLiveState) : LivePayload :=
  { title := jsTrim s.title
    description := jsTrim s.description
    category := s.category
    status := "live"
    viewer_count := 0 }

/-! ## Submission handlers as effect traces -/

/-- Outcome of the awaited fetch + response.json() pair: either a decoded
response with its `ok` flag and optional `detail` field, or a transport
failure (fetch or json threw). -/
inductive NetResult
  | resp (ok : Bool) (detail : Option String)
  | transportError
  deriving DecidableEq, Repr

/-- Observable effects a submission handler performs, in program order:
busy-flag writes, the network request (with its payload), and alert
notifications (title, message). Navigation and the campaign form reset run
only inside alert-button callbacks pressed later by the user; they are not
part of the handler's own trace. -/
inductive Effect
  | setLoading (b : Bool)
  | campaignRequest (p : CampaignPayload)
  | liveRequest (p : LivePayload)
  | alert (title msg : String)
  deriving DecidableEq, Repr

/-- handleLaunchCampaign: validate (alerting and stopping on failure), set
busy, POST, then alert on the outcome — success banner, `data.detail ||
'Failed to create campaign'` on a non-ok response, or the generic network
error when the request throws — and finally clear busy. The alert of the
outcome is issued before the `finally` block clears the busy flag. -/
def handleLaunchCampaign (s : CampaignState) (net : NetResult) :
    List Effect × CampaignState :=
  match campaignValidate s with
  | some (t, m) => ([.alert t m], s)
  | none =>
    let p := mkCampaignPayload s
    match net with
    | .resp ok detail =>
      if ok then
        ([.setLoading true, .campaignRequest p,
          .alert "Success! 🎉" "Your campaign has been launched!",
          .setLoading false],
         { s with isLoading := false })
      else
        ([.setLoading true, .campaignRequest p,
          .alert "Error" (jsStrOr detail "Failed to create campaign"),
          .setLoading false],
         { s with isLoading := false })
    | .transportError =>
      ([.setLoading true, .campaignRequest p,
        .alert "Error" "Network error. Please check your connection.",
        .setLoading false],
       { s with isLoading := false })

/-- handleGoLive: validate, then refuse when `hasPermission` is not truthy,
then set busy and POST. On a non-ok response the code throws
`Error(data.detail || ...)`, which its own catch replaces with the fixed
message "Failed to start live stream. Please try again." — the same alert
shown for a transport failure; `detail` itself is only logged. The success
banner's Start Streaming button (navigation) is outside the trace. -/
def handleGoLive (s : GoLiveState) (net : NetResult) :
    List Effect × GoLiveState :=
  match goLiveValidate s with
  | some (t, m) => ([.alert t m], s)
  | none =>
    if jsTruthy s.hasPermission then
      let p := mkLivePayload s
      match net with
      | .resp ok _ =>
        if ok then
          ([.setLoading true, .liveRequest p,
            .alert "🎉 You\x27re Live!"
              "Your stream is now broadcasting to the world!",
            .setLoading false],
           { s with isLoading := false })
        else
          ([.setLoading true, .liveRequest p,
            .alert "Error" "Failed to start live stream. Please try again.",
            .setLoading false],
           { s with isLoading := false })
      | .transportError =>
        ([.setLoading true, .liveRequest p,
          .alert "Error" "Failed to start live stream. Please try again.",
          .setLoading false],
         { s with isLoading := false })
    else
      ([.alert "No Permission"
          "Please grant camera and microphone permissions"], s)

/-! ## Reachable states of the GoLive screen -/

/-- The operations GoLiveScreen performs on its own state: the two text
inputs, a press on one of the eight category chips (the only write to
`category`, always with an element of `categories`), the resolution of the
mount-time permission request (granted only when both camera and microphone
grants succeed), the two local camera toggles, and a completed submission. -/
inductive GoLiveEvent
  | setTitle (s : String)
  | setDescription (s : String)
  | pressCategoryChip (i : Fin categories.length)
  | permissionResult (cam mic : Bool)
  | togglePreview
  | flipCamera
  | submit (net : NetResult)

/-- One state transition of GoLiveScreen. -/
def goLiveStep (st : GoLiveState) : GoLiveEvent → GoLiveState
  | .setTitle s => { st with title := s }
  | .setDescription s => { st with description := s }
  | .pressCategoryChip i => { st with category := categories.get i }
  | .permissionResult cam mic => { st with hasPermission := some (cam && mic) }
  | .togglePreview => { st with showPreview := !st.showPreview }
  | .flipCamera =>
    { st with cameraType :=
        match st.cameraType with
        | .back => .front
        | .front => .back }
  | .submit net => (handleGoLive st net).2

/-- Mount-time state of GoLiveScreen: every field empty, permission not yet
resolved, back camera, preview hidden. -/
def initialGoLiveState : GoLiveState :=
  { title := ""
    description := ""
    category := ""
    hasPermission := none
    isLoading := false
    cameraType := .back
    showPreview := false }

/-- The state reached after a sequence of GoLive events from mount. -/
def runGoLive (evs : List GoLiveEvent) : GoLiveState :=
  evs.foldl goLiveStep initialGoLiveState

/-! ## Trace observations -/

/-- Whether every alert in an effect trace is issued while the busy flag is
false, starting from busy value `b` and tracking the setLoading writes. -/
def alertsOnlyWhenIdle : Bool → List Effect → Bool
  | _, [] => true
  | _, .setLoading b2 :: rest => alertsOnlyWhenIdle b2 rest
  | b, .alert _ _ :: rest => !b && alertsOnlyWhenIdle b rest
  | b, _ :: rest => alertsOnlyWhenIdle b rest

/-- Whether an effect trace contains a network request (to either
endpoint). -/
def hasRequest : List Effect → Bool
  | [] => false
  | .campaignRequest _ :: _ => true
  | .liveRequest _ :: _ => true
  | _ :: rest => hasRequest rest

/-- Normalization of the tags field as the specification words it: split the
input on commas, trim each segment, drop the empty segments, preserving
order. -/
def specTagNormalize (s : String) : List String :=
  ((jsSplitComma s).map jsTrim).filter (fun t => t != "")

/-! ## Helper lemmas -/

/-- jsTruthy is false exactly when the flag is not `some true`. -/
lemma jsTruthy_eq_false_of_ne (o : Option Bool) (h : o ≠ some true) :
    jsTruthy o = false := by
  cases o with
  | none => rfl
  | some b => cases b with
    | false => rfl
    | true => exact absurd rfl h

/-- A passing GoLive validation implies a non-empty category. -/
lemma goLiveValidate_none_category_ne (s : GoLiveState)
    (h : goLiveValidate s = none) : s.category ≠ "" := by
  unfold goLiveValidate at h
  split_ifs at h with h1 h2 h3
  · exact h3

/-- The GoLive submission handler never writes the category field. -/
lemma handleGoLive_category (s : GoLiveState) (net : NetResult) :
    (handleGoLive s net).2.category = s.category := by
  unfold handleGoLive
  cases h : goLiveValidate s with
  | some tm => rfl
  | none =>
    cases ht : jsTruthy s.hasPermission with
    | false => simp [ht]
    | true =>
      cases net with
      | resp ok d => cases ok <;> simp [ht]
      | transportError => simp [ht]

/-- The invariant maintained on the GoLive screen's category field. -/
def categoryInv (s : GoLiveState) : Prop :=
  s.category = "" ∨ s.category ∈ categories

/-- Every single GoLive event preserves the category invariant. -/
lemma goLiveStep_preserves_categoryInv (s : GoLiveState) (e : GoLiveEvent)
    (h : categoryInv s) : categoryInv (goLiveStep s e) := by
  cases e with
  | setTitle t => exact h
  | setDescription t => exact h
  | pressCategoryChip i => exact Or.inr (List.get_mem categories i.1 i.2)
  | permissionResult cam mic => exact h
  | togglePreview => exact h
  | flipCamera => exact h
  | submit net =>
    unfold categoryInv
    rw [goLiveStep, handleGoLive_category]
    exact h

/-- Folding GoLive events preserves the category invariant. -/
lemma foldl_preserves_categoryInv :
    ∀ (evs : List GoLiveEvent) (s : GoLiveState),
      categoryInv s → categoryInv (evs.foldl goLiveStep s)
  | [], _, h => h
  | e :: evs, s, h =>
    foldl_preserves_categoryInv evs (goLiveStep s e)
      (goLiveStep_preserves_categoryInv s e h)

/-! ## Claims -/

/-- C1: the spec says every funding-goal string that does not parse to a
positive number — including "abc" — is refused with the funding-goal error
and no request is issued. The code refuses "0", "-5" and "", but for "abc"
the check `parseFloat(fundingGoal) <= 0` compares NaN, which is false, so
validation passes and a POST is issued whose goal field is NaN. -/
theorem c1_nan_goal_passes_validation :
    campaignValidate
      ⟨"Clean Water Project", "Providing clean water", "abc", "30", "", false⟩
      = none ∧
    (mkCampaignPayload
      ⟨"Clean Water Project", "Providing clean water", "abc", "30", "", false⟩).goal
      = JsNum.nan ∧
    hasRequest (handleLaunchCampaign
      ⟨"Clean Water Project", "Providing clean water", "abc", "30", "", false⟩
      (NetResult.resp true none)).1 = true ∧
    campaignValidate
      ⟨"Clean Water Project", "Providing clean water", "0", "30", "", false⟩
      = some ("Error", "Please enter a valid funding goal") ∧
    campaignValidate
      ⟨"Clean Water Project", "Providing clean water", "-5", "30", "", false⟩
      = some ("Error", "Please enter a valid funding goal") ∧
    campaignValidate
      ⟨"Clean Water Project", "Providing clean water", "", "30", "", false⟩
      = some ("Error", "Please enter a valid funding goal") := by
  decide

/-- C2: the spec says every duration string that does not parse to a
positive integer is refused with the duration error and no request is
issued. The code refuses "0", "-2" and "", but for "xyz" the check
`parseInt(duration) <= 0` compares NaN, which is false, so validation
passes and a POST is issued whose duration field is NaN. -/
theorem c2_nan_duration_passes_validation :
    campaignValidate
      ⟨"River Cleanup", "Removing plastic", "250", "xyz", "", false⟩ = none ∧
    (mkCampaignPayload
      ⟨"River Cleanup", "Removing plastic", "250", "xyz", "", false⟩).duration_days
      = none ∧
    hasRequest (handleLaunchCampaign
      ⟨"River Cleanup", "Removing plastic", "250", "xyz", "", false⟩
      (NetResult.resp true none)).1 = true ∧
    campaignValidate
      ⟨"River Cleanup", "Removing plastic", "250", "0", "", false⟩
      = some ("Error", "Please enter a valid duration in days") ∧
    campaignValidate
      ⟨"River Cleanup", "Removing plastic", "250", "-2", "", false⟩
      = some ("Error", "Please enter a valid duration in days") ∧
    campaignValidate
      ⟨"River Cleanup", "Removing plastic", "250", "", "", false⟩
      = some ("Error", "Please enter a valid duration in days") := by
  decide

/-- GoLive state used for the C3 counterexample: an untrimmed title of
length 3 whose trimmed form has length 1. -/
def c3State : GoLiveState :=
  { title := " a "
    description := ""
    category := "Education"
    hasPermission := some true
    isLoading := false
    cameraType := .back
    showPreview := false }

/-- C3 counterexample: the claim says a title whose TRIMMED form is shorter
than 3 characters is always refused, giving " a " as a rejected example. On
the code, " a " has trimmed form "a" (length 1) but untrimmed length 3, the
length check `title.length < 3` uses the untrimmed string, so validation
passes and a request is issued whose (trimmed) title is the single
character "a". -/
theorem c3_trimmed_short_title_accepted :
    (jsTrim c3State.title).length = 1 ∧
    goLiveValidate c3State = none ∧
    hasRequest (handleGoLive c3State (NetResult.resp true none)).1 = true ∧
    (mkLivePayload c3State).title = "a" := by
  decide

/-- C3 amended: the livestream title rules refuse a submission exactly when
the trimmed title is empty or the UNTRIMMED title has length < 3; so "ab"
is rejected and "abc" accepted as claimed, but " a " (untrimmed length 3,
trimmed length 1) passes the length rule. -/
theorem c3_amended_untrimmed_length_rule :
    ∀ s : GoLiveState,
      (goLiveValidate s
          = some ("Missing Information", "Please enter a stream title") ∨
       goLiveValidate s
          = some ("Title Too Short", "Stream title must be at least 3 characters"))
      ↔ (jsTrim s.title = "" ∨ s.title.length < 3) := by
  intro s
  unfold goLiveValidate
  split_ifs with h1 h2 h3
  · exact iff_of_true (Or.inl rfl) (Or.inl h1)
  · exact iff_of_true (Or.inr rfl) (Or.inr h2)
  · refine iff_of_false ?_ ?_
    · rintro (h | h) <;> simp at h
    · rintro (h | h)
      · exact h1 h
      · exact h2 h
  · refine iff_of_false ?_ ?_
    · rintro (h | h) <;> simp at h
    · rintro (h | h)
      · exact h1 h
      · exact h2 h

/-- C6: the spec says a submission with any required field empty or blank
never issues a network request. Blank (whitespace-only) title and
description are indeed refused, but a blank funding goal "   " is only
guarded by `!fundingGoal` (false for a non-empty string) and
`parseFloat("   ") <= 0` (false, NaN again), so validation passes and the
request is issued. -/
theorem c6_blank_goal_sends_request :
    campaignValidate
      ⟨"Tree Planting", "Planting trees", "   ", "14", "", false⟩ = none ∧
    hasRequest (handleLaunchCampaign
      ⟨"Tree Planting", "Planting trees", "   ", "14", "", false⟩
      (NetResult.resp true none)).1 = true ∧
    campaignValidate
      ⟨"   ", "Planting trees", "50", "14", "", false⟩
      = some ("Error", "Please enter a campaign title") ∧
    campaignValidate
      ⟨"Tree Planting", "   ", "50", "14", "", false⟩
      = some ("Error", "Please enter a campaign description") ∧
    campaignValidate
      ⟨"Tree Planting", "Planting trees", "", "14", "", false⟩
      = some ("Error", "Please enter a valid funding goal") ∧
    campaignValidate
      ⟨"Tree Planting", "Planting trees", "50", "", "", false⟩
      = some ("Error", "Please enter a valid duration in days") := by
  decide

/-- GoLive state used for the C4 counterexample: a valid submission with
permission granted. -/
def c4State : GoLiveState :=
  { title := "Beach Cleanup Live"
    description := "Join us"
    category := "Environment"
    hasPermission := some true
    isLoading := false
    cameraType := .back
    showPreview := false }

/-- C4 counterexample: the claim says that on BOTH screens a rejection shows
the response's detail field verbatim when present. On the livestream screen
a rejection with detail "Stream limit reached" produces only the fixed
message "Failed to start live stream. Please try again." — the thrown
`Error(data.detail || ...)` is swallowed by the catch block, which shows its
own generic text, so the detail is never displayed. -/
theorem c4_live_detail_never_shown :
    (handleGoLive c4State (NetResult.resp false (some "Stream limit reached"))).1
      = [Effect.setLoading true, Effect.liveRequest (mkLivePayload c4State),
         Effect.alert "Error" "Failed to start live stream. Please try again.",
         Effect.setLoading false] ∧
    ("Failed to start live stream. Please try again." : String)
      ≠ "Stream limit reached" := by
  decide

/-- C4 amended: on a server-signaled rejection, the campaign screen shows
the response's detail when present and non-empty (JavaScript `||`), else its
generic fallback; the livestream screen always shows its own fixed generic
message, regardless of detail. -/
theorem c4_amended_rejection_messages :
    ∀ (cs : CampaignState) (ls : GoLiveState) (d d2 : Option String),
      campaignValidate cs = none → goLiveValidate ls = none →
      jsTruthy ls.hasPermission = true →
      (handleLaunchCampaign cs (NetResult.resp false d)).1
        = [Effect.setLoading true,
           Effect.campaignRequest (mkCampaignPayload cs),
           Effect.alert "Error" (jsStrOr d "Failed to create campaign"),
           Effect.setLoading false] ∧
      (handleGoLive ls (NetResult.resp false d2)).1
        = [Effect.setLoading true, Effect.liveRequest (mkLivePayload ls),
           Effect.alert "Error" "Failed to start live stream. Please try again.",
           Effect.setLoading false] := by
  intro cs ls d d2 hcs hls hperm
  constructor
  · simp [handleLaunchCampaign, hcs]
  · simp [handleGoLive, hls, hperm]

/-- C4 amended, witness: a concrete campaign rejection with detail
"Goal too high" shows exactly that text, and a concrete livestream
rejection with a detail present shows the generic livestream message. -/
theorem c4_amended_witness :
    campaignValidate
      ⟨"Food Drive", "Meals for families", "800", "21", "", false⟩ = none ∧
    goLiveValidate
      ⟨"Homework Help", "", "Education", some true, false, .back, false⟩
      = none ∧
    jsTruthy (some true) = true ∧
    ((handleLaunchCampaign
        ⟨"Food Drive", "Meals for families", "800", "21", "", false⟩
        (NetResult.resp false (some "Goal too high"))).1
      = [Effect.setLoading true,
         Effect.campaignRequest (mkCampaignPayload
           ⟨"Food Drive", "Meals for families", "800", "21", "", false⟩),
         Effect.alert "Error" (jsStrOr (some "Goal too high")
           "Failed to create campaign"),
         Effect.setLoading false] ∧
     (handleGoLive
        ⟨"Homework Help", "", "Education", some true, false, .back, false⟩
        (NetResult.resp false (some "Goal too high"))).1
      = [Effect.setLoading true,
         Effect.liveRequest (mkLivePayload
           ⟨"Homework Help", "", "Education", some true, false, .back, false⟩),
         Effect.alert "Error" "Failed to start live stream. Please try again.",
         Effect.setLoading false]) :=
  ⟨by decide, by decide, by decide,
   c4_amended_rejection_messages
     ⟨"Food Drive", "Meals for families", "800", "21", "", false⟩
     ⟨"Homework Help", "", "Education", some true, false, .back, false⟩
     (some "Goal too high") (some "Goal too high")
     (by decide) (by decide) (by decide)⟩

/-- C5 counterexample: the claim says the busy flag is cleared before any
notification is shown. In both handlers the outcome alert is issued inside
the try block, before the finally block runs setIsLoading(false): tracking
the busy value through a concrete successful campaign submission and a
concrete failed livestream submission, the alert is issued while the flag
is still true. -/
theorem c5_alert_issued_while_busy :
    alertsOnlyWhenIdle false
      (handleLaunchCampaign
        ⟨"Solar Panels", "Panels for the school", "1200", "45", "", false⟩
        (NetResult.resp true none)).1 = false ∧
    alertsOnlyWhenIdle false
      (handleGoLive
        ⟨"Morning Yoga", "", "Health", some true, false, .back, false⟩
        NetResult.transportError).1 = false := by
  decide

/-- C5 amended: for every submission started from a non-busy state, on
either screen and for every outcome, the busy flag is false again once the
handler completes (the finally block always clears it); the outcome
notification, however, is issued just before that clearing, not after. -/
theorem c5_amended_busy_cleared_by_handler_end :
    ∀ (cs : CampaignState) (ls : GoLiveState) (net net2 : NetResult),
      cs.isLoading = false → ls.isLoading = false →
      (handleLaunchCampaign cs net).2.isLoading = false ∧
      (handleGoLive ls net2).2.isLoading = false := by
  intro cs ls net net2 hcs hls
  constructor
  · unfold handleLaunchCampaign
    cases h : campaignValidate cs with
    | some tm => simpa using hcs
    | none =>
      cases net with
      | resp ok d => cases ok <;> simp
      | transportError => simp
  · unfold handleGoLive
    cases h : goLiveValidate ls with
    | some tm => simpa using hls
    | none =>
      cases ht : jsTruthy ls.hasPermission with
      | false => simpa [ht] using hls
      | true =>
        cases net2 with
        | resp ok d => cases ok <;> simp [ht]
        | transportError => simp [ht]

/-- C5 amended, witness: concrete submissions on both screens end with the
busy flag false. -/
theorem c5_amended_witness :
    (⟨"Bike Repair", "Fixing bikes", "300", "10", "", false⟩ :
      CampaignState).isLoading = false ∧
    (⟨"Live Concert", "", "Arts & Culture", some true, false, .back, false⟩ :
      GoLiveState).isLoading = false ∧
    ((handleLaunchCampaign
        ⟨"Bike Repair", "Fixing bikes", "300", "10", "", false⟩
        NetResult.transportError).2.isLoading = false ∧
     (handleGoLive
        ⟨"Live Concert", "", "Arts & Culture", some true, false, .back, false⟩
        (NetResult.resp true none)).2.isLoading = false) :=
  ⟨by decide, by decide,
   c5_amended_busy_cleared_by_handler_end
     ⟨"Bike Repair", "Fixing bikes", "300", "10", "", false⟩
     ⟨"Live Concert", "", "Arts & Culture", some true, false, .back, false⟩
     NetResult.transportError (NetResult.resp true none)
     (by decide) (by decide)⟩

/-- C7: whenever the permission flag is not granted (still unresolved or
denied), the livestream handler issues no network request, and when the
fields are otherwise valid it refuses with the explanatory No Permission
alert and leaves the state unchanged. -/
theorem c7_no_permission_refuses_submission :
    ∀ (ls : GoLiveState) (net : NetResult),
      ls.hasPermission ≠ some true →
      hasRequest (handleGoLive ls net).1 = false ∧
      (goLiveValidate ls = none →
        (handleGoLive ls net).1
          = [Effect.alert "No Permission"
              "Please grant camera and microphone permissions"] ∧
        (handleGoLive ls net).2 = ls) := by
  intro ls net hperm
  have ht : jsTruthy ls.hasPermission = false :=
    jsTruthy_eq_false_of_ne ls.hasPermission hperm
  unfold handleGoLive
  cases hv : goLiveValidate ls with
  | some tm => simp [hasRequest, hv]
  | none => simp [ht, hasRequest]

/-- C7 witness: a concrete valid livestream form with the permission request
resolved to denied issues no request and shows the No Permission alert. -/
theorem c7_witness :
    ((⟨"Puppy Cam", "", "Other", some false, false, .back, false⟩ :
        GoLiveState).hasPermission ≠ some true) ∧
    goLiveValidate
      ⟨"Puppy Cam", "", "Other", some false, false, .back, false⟩ = none ∧
    (hasRequest (handleGoLive
        ⟨"Puppy Cam", "", "Other", some false, false, .back, false⟩
        (NetResult.resp true none)).1 = false ∧
     (handleGoLive
        ⟨"Puppy Cam", "", "Other", some false, false, .back, false⟩
        (NetResult.resp true none)).1
       = [Effect.alert "No Permission"
           "Please grant camera and microphone permissions"]) :=
  ⟨by decide, by decide,
   (c7_no_permission_refuses_submission
      ⟨"Puppy Cam", "", "Other", some false, false, .back, false⟩
      (NetResult.resp true none) (by decide)).1,
   ((c7_no_permission_refuses_submission
      ⟨"Puppy Cam", "", "Other", some false, false, .back, false⟩
      (NetResult.resp true none) (by decide)).2 (by decide)).1⟩

/-- C8: a transport failure during a validated campaign submission ends with
the busy flag false, shows the generic connectivity alert, and leaves all
five entered field values unchanged. -/
theorem c8_transport_failure_preserves_fields :
    ∀ cs : CampaignState, campaignValidate cs = none →
      (handleLaunchCampaign cs NetResult.transportError).2.isLoading = false ∧
      (handleLaunchCampaign cs NetResult.transportError).2.title = cs.title ∧
      (handleLaunchCampaign cs NetResult.transportError).2.description
        = cs.description ∧
      (handleLaunchCampaign cs NetResult.transportError).2.fundingGoal
        = cs.fundingGoal ∧
      (handleLaunchCampaign cs NetResult.transportError).2.duration
        = cs.duration ∧
      (handleLaunchCampaign cs NetResult.transportError).2.tags = cs.tags ∧
      (handleLaunchCampaign cs NetResult.transportError).1
        = [Effect.setLoading true,
           Effect.campaignRequest (mkCampaignPayload cs),
           Effect.alert "Error" "Network error. Please check your connection.",
           Effect.setLoading false] := by
  intro cs h
  simp [handleLaunchCampaign, h]

/-- C8 witness: a concrete valid campaign submission hit by a transport
failure keeps its entered values and ends non-busy with the connectivity
alert in its trace. -/
theorem c8_witness :
    campaignValidate
      ⟨"Art Supplies", "Paint for kids", "  150.50 ", "7", "art, kids", false⟩
      = none ∧
    ((handleLaunchCampaign
        ⟨"Art Supplies", "Paint for kids", "  150.50 ", "7", "art, kids", false⟩
        NetResult.transportError).2.isLoading = false ∧
     (handleLaunchCampaign
        ⟨"Art Supplies", "Paint for kids", "  150.50 ", "7", "art, kids", false⟩
        NetResult.transportError).2.fundingGoal = "  150.50 ") :=
  ⟨by decide,
   (c8_transport_failure_preserves_fields
      ⟨"Art Supplies", "Paint for kids", "  150.50 ", "7", "art, kids", false⟩
      (by decide)).1,
   (c8_transport_failure_preserves_fields
      ⟨"Art Supplies", "Paint for kids", "  150.50 ", "7", "art, kids", false⟩
      (by decide)).2.2.2.1⟩

/-- C9: for every tags input, the tags list in the campaign payload is the
input split on commas, each segment trimmed, empty segments dropped, order
preserved (so every sent tag is non-empty); on "a, b ,, c" this yields
["a", "b", "c"]. -/
theorem c9_tags_normalized_as_specified :
    (∀ cs : CampaignState,
      (mkCampaignPayload cs).tags = specTagNormalize cs.tags ∧
      ((mkCampaignPayload cs).tags.all (fun t => t != "")) = true) ∧
    (mkCampaignPayload ⟨"T", "D", "5000", "30", "a, b ,, c", false⟩).tags
      = ["a", "b", "c"] := by
  constructor
  · intro cs
    refine ⟨rfl, ?_⟩
    simp only [mkCampaignPayload, List.all_eq_true, List.mem_filter]
    exact fun t h => h.2
  · decide

/-- C10: in every state of the livestream screen reachable from mount, the
category is the empty string or one of the eight fixed categories (the only
write to it is a press on one of the eight chips), so the mere non-emptiness
check in validateForm guarantees a validated category is one of the eight
values. -/
theorem c10_category_always_from_fixed_list :
    ∀ evs : List GoLiveEvent,
      ((runGoLive evs).category = "" ∨ (runGoLive evs).category ∈ categories) ∧
      (goLiveValidate (runGoLive evs) = none →
        (runGoLive evs).category ∈ categories) := by
  intro evs
  have hinv : categoryInv (runGoLive evs) :=
    foldl_preserves_categoryInv evs initialGoLiveState (Or.inl rfl)
  refine ⟨hinv, fun hv => ?_⟩
  cases hinv with
  | inl h => exact absurd h (goLiveValidate_none_category_ne _ hv)
  | inr h => exact h

/-- Event sequence for the C10 witness: type a title, resolve permissions,
press the Community chip. -/
def c10DemoEvents : List GoLiveEvent :=
  [.setTitle "Community garden tour", .permissionResult true true,
   .pressCategoryChip ⟨4, by decide⟩]

/-- C10 witness: after the concrete event sequence, validation passes and
the category is one of the eight fixed values. -/
theorem c10_witness :
    goLiveValidate (runGoLive c10DemoEvents) = none ∧
    (runGoLive c10DemoEvents).category ∈ categories :=
  ⟨by decide, (c10_category_always_from_fixed_list c10DemoEvents).2 (by decide)⟩
